import Mathlib

/-!
Verification of the quiz grading engine of the AIDashboard backend
(src/routes/quizRoutes.js, handler `router.post('/:id/submit')`, lines 128-169).

The grading loop is embedded shallowly:
* JavaScript strings become `String`, booleans become `Bool`.
* A value that may be `undefined` in JavaScript becomes an `Option`.
* JavaScript truthiness on strings (`if (question.correctAnswer)`,
  `if (userAnswer && ...)`) is modelled explicitly: `none` and `some ""`
  are falsy, every other string is truthy.
* JavaScript numbers used here (`passPercentage`, `percentage`) are modelled
  as rationals; the one reachable NaN (`0 / 0` when the quiz has no
  questions) is modelled as `none` in an `Option ℚ`, and `NaN >= x` is
  `false`, as in JavaScript.
* The mutable loop state of the source (`score`, `results`, plus the
  `quiz` and `answers` bindings it reads) is threaded through a fold over
  `quiz.questions`, mirroring `quiz.questions.forEach(...)`.
-/

namespace QuizGrading

/-- One entry of `question.options`: `{ text, isCorrect }`. -/
structure QOption where
  text : String
  isCorrect : Bool
deriving Repr, DecidableEq

/-- A quiz question as read by the grading loop: `id`, `type` (a runtime
string in the source), `questionText`, `options` (used by the
multiple-choice / true-false branch) and `correctAnswer` (used by the
short-answer branch; `none` models an `undefined` field). -/
structure Question where
  id : String
  type : String
  questionText : String
  options : List QOption
  correctAnswer : Option String
deriving Repr, DecidableEq

/-- One element of the submitted `answers` array: `{ questionId, userAnswer }`. -/
structure SubmittedAnswer where
  questionId : String
  userAnswer : String
deriving Repr, DecidableEq

/-- A quiz as read by the grading loop: its `questions` in authored order and
its `passPercentage` threshold. -/
structure Quiz where
  title : String
  description : String
  questions : List Question
  passPercentage : ℚ
deriving Repr, DecidableEq

/-- One entry pushed onto `results` for each question (line 159-165 of the
source): `userAnswer` is `none` when no submitted answer matched. -/
structure QuestionResult where
  questionId : String
  questionText : String
  userAnswer : Option String
  correctAnswer : String
  isCorrect : Bool
deriving Repr, DecidableEq

/-- JavaScript truthiness of a possibly-undefined string: `undefined` and
`""` are falsy. -/
def jsTruthy : Option String → Bool
  | none => false
  | some s => s != ""

/-- Line 134: `answers.find(a => a.questionId === question.id)?.userAnswer`.
`List.find?` returns the first match, as `Array.prototype.find` does. -/
def findUserAnswer (answers : List SubmittedAnswer) (q : Question) : Option String :=
  (answers.find? (fun a => a.questionId == q.id)).map SubmittedAnswer.userAnswer

/-- Lines 134-165: grade one question against the submitted answers and build
its `results` entry.  The branch structure follows the source exactly:
the multiple-choice / true-false branch scans `options` for the first
truthy `isCorrect`; the short-answer branch is guarded by the truthiness
of `question.correctAnswer` and of `userAnswer`; any other `type` falls
through with `isCorrect = false` and `correctAnswerText = ''`. -/
def gradeQuestion (answers : List SubmittedAnswer) (q : Question) : QuestionResult :=
  let userAnswer := findUserAnswer answers q
  let p :=
    if q.type == "multiple-choice" || q.type == "true-false" then
      match q.options.find? (fun opt => opt.isCorrect) with
      | some correctOption =>
          (userAnswer == some correctOption.text, correctOption.text)
      | none => (false, "")
    else if q.type == "short-answer" then
      match q.correctAnswer with
      | some ca =>
          if ca == "" then (false, "")
          else
            (jsTruthy userAnswer &&
               ((userAnswer.getD "").toLower == ca.toLower), ca)
      | none => (false, "")
    else (false, "")
  { questionId := q.id
    questionText := q.questionText
    userAnswer := userAnswer
    correctAnswer := p.2
    isCorrect := p.1 }

/-- The mutable state of the grading loop: the `quiz` and `answers` bindings
the loop reads, and the accumulators `score` and `results` it writes. -/
structure GradeState where
  quiz : Quiz
  answers : List SubmittedAnswer
  score : Nat
  results : List QuestionResult
deriving Repr, DecidableEq

/-- One iteration of `quiz.questions.forEach(...)` (lines 132-166):
grade the question, increment `score` when correct, push the entry. -/
def gradeStep (s : GradeState) (q : Question) : GradeState :=
  let r := gradeQuestion s.answers q
  { s with
    score := if r.isCorrect then s.score + 1 else s.score
    results := s.results ++ [r] }

/-- The whole loop: fold `gradeStep` over the questions starting from
`score = 0`, `results = []` (lines 128-166). -/
def gradeRun (quiz : Quiz) (answers : List SubmittedAnswer) : GradeState :=
  quiz.questions.foldl gradeStep
    { quiz := quiz, answers := answers, score := 0, results := [] }

/-- Line 168: `(score / totalQuestions) * 100` under JavaScript number
semantics at the reachable inputs: the loop guarantees `score = 0` whenever
`totalQuestions = 0`, where `0 / 0` is NaN, modelled as `none`. -/
def jsPercentage (score totalQuestions : Nat) : Option ℚ :=
  if totalQuestions = 0 then none
  else some ((score : ℚ) / (totalQuestions : ℚ) * 100)

/-- Line 169: `percentage >= quiz.passPercentage`; any comparison with NaN
is `false` in JavaScript. -/
def jsGe (x : Option ℚ) (y : ℚ) : Bool :=
  match x with
  | none => false
  | some q => decide (y ≤ q)

/-- The graded result returned in the 200 response body (lines 173-180). -/
structure GradedResult where
  score : Nat
  totalQuestions : Nat
  percentage : Option ℚ
  passed : Bool
  results : List QuestionResult
deriving DecidableEq

/-- Lines 128-180: the grading engine.  Runs the loop, then computes
`totalQuestions`, `percentage` and `passed` and assembles the response. -/
def grade (quiz : Quiz) (answers : List SubmittedAnswer) : GradedResult :=
  let st := gradeRun quiz answers
  let totalQuestions := quiz.questions.length
  let percentage := jsPercentage st.score totalQuestions
  { score := st.score
    totalQuestions := totalQuestions
    percentage := percentage
    passed := jsGe percentage quiz.passPercentage
    results := st.results }

/-- Concrete fixtures used to exercise the theorems below (Scenario A/B of
the specification: a capital-of-France multiple-choice question). -/
def parisMC : Question :=
  { id := "q1", type := "multiple-choice", questionText := "Capital of France?",
    options := [⟨"Paris", true⟩, ⟨"Lyon", false⟩], correctAnswer := none }

/-- Scenario C fixture: a short-answer question expecting `Paris`. -/
def parisSA : Question :=
  { id := "q2", type := "short-answer", questionText := "Capital of France?",
    options := [], correctAnswer := some "Paris" }

/-- A two-question quiz built from the fixtures, pass threshold 50. -/
def sampleQuiz : Quiz :=
  { title := "Geography", description := "", questions := [parisMC, parisSA],
    passPercentage := 50 }

/-- Scenario E fixture: a quiz with no questions. -/
def emptyQuiz : Quiz :=
  { title := "Empty", description := "", questions := [], passPercentage := 50 }

/-- First-match semantics of `Array.prototype.find` / `List.find?`: the
first element satisfying the predicate is returned, earlier elements
failing it are skipped. -/
theorem find?_first {α : Type} (p : α → Bool) (l₁ : List α) (a : α) (l₂ : List α)
    (h₁ : ∀ x ∈ l₁, p x = false) (ha : p a = true) :
    (l₁ ++ a :: l₂).find? p = some a := by
  induction l₁ with
  | nil => simp [List.find?_cons, ha]
  | cons x l ih =>
      have hx := h₁ x (by simp)
      simpa [List.find?_cons, hx] using ih (fun y hy => h₁ y (by simp [hy]))

/-- Lowercasing maps characters one-to-one, so only the empty string
lowercases to the empty string. -/
theorem toLower_eq_empty_iff (s : String) : s.toLower = "" ↔ s = "" := by
  constructor
  · intro h
    have hd : (String.toLower s).data = [] := by rw [h]
    rw [String.toLower, String.map_eq] at hd
    have hnil : s.data = [] := by simpa using hd
    apply String.ext
    simpa using hnil
  · intro h
    rw [h, String.toLower, String.map_eq]
    rfl

/-- Closed form of the grading loop from an arbitrary starting state:
the `quiz` and `answers` bindings are never written, each question appends
exactly one `results` entry in question order, and `score` counts the
correct entries. -/
theorem foldl_gradeStep (qs : List Question) (s : GradeState) :
    qs.foldl gradeStep s =
      { quiz := s.quiz
        answers := s.answers
        score := s.score +
          (qs.map (gradeQuestion s.answers)).countP QuestionResult.isCorrect
        results := s.results ++ qs.map (gradeQuestion s.answers) } := by
  induction qs generalizing s with
  | nil => simp
  | cons q qs ih =>
      rw [List.foldl_cons, ih]
      simp only [gradeStep, List.map_cons, List.countP_cons]
      cases h : (gradeQuestion s.answers q).isCorrect <;>
        simp [h] <;> try omega

/-- The per-question entry always carries the question's own `id`. -/
theorem gradeQuestion_questionId (answers : List SubmittedAnswer) (q : Question) :
    (gradeQuestion answers q).questionId = q.id := rfl

/-- The per-question entry's `userAnswer` is the looked-up submitted answer. -/
theorem gradeQuestion_userAnswer (answers : List SubmittedAnswer) (q : Question) :
    (gradeQuestion answers q).userAnswer = findUserAnswer answers q := rfl

/-- Every branch of the grader yields `isCorrect = false` when no submitted
answer matched the question (`userAnswer` undefined). -/
theorem isCorrect_false_of_userAnswer_none (answers : List SubmittedAnswer)
    (q : Question) (h : findUserAnswer answers q = none) :
    (gradeQuestion answers q).isCorrect = false := by
  simp only [gradeQuestion, h]
  split
  · split <;> simp
  · split
    · split
      · split <;> simp [jsTruthy]
      · simp
    · simp

/-- The response's `results` array is the per-question grading of
`quiz.questions`, in order. -/
theorem grade_results (quiz : Quiz) (ans : List SubmittedAnswer) :
    (grade quiz ans).results = quiz.questions.map (gradeQuestion ans) := by
  simp [grade, gradeRun, foldl_gradeStep]

/-- The response's `score` counts the correct per-question entries. -/
theorem grade_score (quiz : Quiz) (ans : List SubmittedAnswer) :
    (grade quiz ans).score =
      (quiz.questions.map (gradeQuestion ans)).countP QuestionResult.isCorrect := by
  simp [grade, gradeRun, foldl_gradeStep]

/-- Truthiness `jsTruthy` holds exactly on present, nonempty strings. -/
theorem jsTruthy_eq_true_iff (x : Option String) :
    jsTruthy x = true ↔ ∃ s, x = some s ∧ s ≠ "" := by
  cases x <;> simp [jsTruthy]

/-- The empty string lowercases to itself. -/
theorem toLower_empty : ("" : String).toLower = "" := by
  rw [String.toLower, String.map_eq]
  rfl

/-- C1: for a `multiple-choice` or `true-false` question the grader takes the
first option flagged `isCorrect` as the correct answer: the result entry
reports that option's text, and the question is correct iff the submitted
`userAnswer` equals that text under exact, case-sensitive string equality;
when no option is flagged correct the question is incorrect for every
submission and the reported correct-answer text is empty. -/
theorem C1_choice_grading (ans : List SubmittedAnswer) (q : Question)
    (hty : q.type = "multiple-choice" ∨ q.type = "true-false") :
    (∀ os₁ opt os₂, q.options = os₁ ++ opt :: os₂ → opt.isCorrect = true →
        (∀ o ∈ os₁, o.isCorrect = false) →
        (gradeQuestion ans q).correctAnswer = opt.text ∧
        ((gradeQuestion ans q).isCorrect = true ↔
          (gradeQuestion ans q).userAnswer = some opt.text)) ∧
    ((∀ o ∈ q.options, o.isCorrect = false) →
        (gradeQuestion ans q).isCorrect = false ∧
        (gradeQuestion ans q).correctAnswer = "") := by
  have hc : (q.type == "multiple-choice" || q.type == "true-false") = true := by
    rcases hty with h | h <;> simp [h]
  constructor
  · intro os₁ opt os₂ hopts hcorr hprev
    have hfind : q.options.find? (fun o => o.isCorrect) = some opt := by
      rw [hopts]
      exact find?_first _ _ _ _ hprev hcorr
    simp [gradeQuestion, hc, hfind]
  · intro hnone
    have hfind : q.options.find? (fun o => o.isCorrect) = none := by
      rw [List.find?_eq_none]
      intro x hx
      simp [hnone x hx]
    simp [gradeQuestion, hc, hfind]

/-- C1 applied to Scenario A: the `Paris` option is first-and-only correct
option, the entry reports it, and submitting `Paris` is graded correct. -/
theorem C1_choice_grading_witness :
    (gradeQuestion [⟨"q1", "Paris"⟩] parisMC).correctAnswer = "Paris" ∧
    ((gradeQuestion [⟨"q1", "Paris"⟩] parisMC).isCorrect = true ↔
      (gradeQuestion [⟨"q1", "Paris"⟩] parisMC).userAnswer = some "Paris") :=
  (C1_choice_grading [⟨"q1", "Paris"⟩] parisMC (Or.inl rfl)).1
    [] ⟨"Paris", true⟩ [⟨"Lyon", false⟩] rfl rfl (by simp)

/-- C2: for a `short-answer` question with a set (truthy: present, nonempty)
`correctAnswer`, the question is correct iff a `userAnswer` was found whose
lowercased form equals the lowercased `correctAnswer`, with no whitespace
trimming; when `correctAnswer` is unset the question is incorrect for every
submission. -/
theorem C2_short_answer_grading (ans : List SubmittedAnswer) (q : Question)
    (hty : q.type = "short-answer") :
    (∀ ca, q.correctAnswer = some ca → ca ≠ "" →
        ((gradeQuestion ans q).isCorrect = true ↔
          ∃ ua, (gradeQuestion ans q).userAnswer = some ua ∧
            ua.toLower = ca.toLower)) ∧
    (q.correctAnswer = none → (gradeQuestion ans q).isCorrect = false) := by
  constructor
  · intro ca hca hne
    rw [gradeQuestion_userAnswer]
    have hic : (gradeQuestion ans q).isCorrect =
        (jsTruthy (findUserAnswer ans q) &&
          ((findUserAnswer ans q).getD "").toLower == ca.toLower) := by
      simp [gradeQuestion, hty, hca, hne]
    rw [hic]
    constructor
    · intro h
      rw [Bool.and_eq_true] at h
      obtain ⟨s, hs, hsne⟩ := (jsTruthy_eq_true_iff _).mp h.1
      refine ⟨s, hs, ?_⟩
      have := h.2
      rw [hs] at this
      simpa using this
    · rintro ⟨ua, hua, hlow⟩
      have huane : ua ≠ "" := by
        intro h0
        rw [h0, toLower_empty] at hlow
        exact hne ((toLower_eq_empty_iff ca).mp hlow.symm)
      rw [hua]
      simp [jsTruthy, huane, hlow]
  · intro hca
    simp [gradeQuestion, hty, hca]

/-- C2 applied to Scenario C: `PARIS` matches the expected `Paris`
case-insensitively. -/
theorem C2_short_answer_grading_witness :
    (gradeQuestion [⟨"q2", "PARIS"⟩] parisSA).isCorrect = true :=
  ((C2_short_answer_grading [⟨"q2", "PARIS"⟩] parisSA rfl).1 "Paris" rfl
      (by decide)).mpr
    ⟨"PARIS", rfl, by rw [String.toLower, String.toLower, String.map_eq, String.map_eq]; rfl⟩

/-- C3: with at least one question, the score is between 0 and
`totalQuestions` (the lower bound holds by the type `Nat`), the reported
percentage is exactly `score / totalQuestions * 100`, and `passed` holds
exactly when that percentage reaches `passPercentage`. -/
theorem C3_aggregates (quiz : Quiz) (ans : List SubmittedAnswer)
    (h : 0 < quiz.questions.length) :
    (grade quiz ans).score ≤ (grade quiz ans).totalQuestions ∧
    (grade quiz ans).totalQuestions = quiz.questions.length ∧
    (grade quiz ans).percentage =
      some (((grade quiz ans).score : ℚ) /
        ((grade quiz ans).totalQuestions : ℚ) * 100) ∧
    ((grade quiz ans).passed = true ↔
      quiz.passPercentage ≤
        ((grade quiz ans).score : ℚ) /
          ((grade quiz ans).totalQuestions : ℚ) * 100) := by
  have hne : quiz.questions.length ≠ 0 := Nat.pos_iff_ne_zero.mp h
  refine ⟨?_, rfl, ?_, ?_⟩
  · rw [grade_score]
    show _ ≤ quiz.questions.length
    calc (quiz.questions.map (gradeQuestion ans)).countP QuestionResult.isCorrect
        ≤ (quiz.questions.map (gradeQuestion ans)).length := List.countP_le_length _
      _ = quiz.questions.length := List.length_map _ _
  · show jsPercentage (gradeRun quiz ans).score quiz.questions.length = _
    rw [jsPercentage, if_neg hne]
    rfl
  · show jsGe (jsPercentage (gradeRun quiz ans).score quiz.questions.length)
      quiz.passPercentage = true ↔ _
    rw [jsPercentage, if_neg hne, jsGe]
    simp
    rfl

/-- C3 applied to the two-question sample quiz. -/
theorem C3_aggregates_witness :
    (grade sampleQuiz [⟨"q1", "Paris"⟩]).score ≤
      (grade sampleQuiz [⟨"q1", "Paris"⟩]).totalQuestions :=
  (C3_aggregates sampleQuiz [⟨"q1", "Paris"⟩] (by decide)).1

/-- C4 counterexample: on a quiz with zero questions the source computes
`(0 / 0) * 100`, which is NaN under JavaScript number semantics (`none` in
this model), so the reported percentage is not 0 as the claim states. -/
theorem C4_counterexample : (grade emptyQuiz []).percentage ≠ some 0 := by
  simp [grade, gradeRun, emptyQuiz, jsPercentage]

/-- C4 amended: on a quiz with zero questions, for every submission, grading
returns `score = 0`, `percentage = NaN` (not 0; modelled by `none`) and
`passed = false`, and being a total function it raises no division fault. -/
theorem C4_zero_questions (quiz : Quiz) (ans : List SubmittedAnswer)
    (h : quiz.questions = []) :
    (grade quiz ans).score = 0 ∧
    (grade quiz ans).percentage = none ∧
    (grade quiz ans).passed = false := by
  refine ⟨?_, ?_, ?_⟩ <;>
    simp [grade, gradeRun, h, jsPercentage, jsGe]

/-- C4 amended, applied to the concrete empty quiz. -/
theorem C4_zero_questions_witness :
    (grade emptyQuiz []).score = 0 ∧
    (grade emptyQuiz []).percentage = none ∧
    (grade emptyQuiz []).passed = false :=
  C4_zero_questions emptyQuiz [] rfl

/-- C5: the per-question `results` array has exactly `totalQuestions`
entries and lists them in quiz-question order (entry `i` carries question
`i`'s id), for every submitted-answers list, hence for every ordering of
the submitted answers. -/
theorem C5_results_order (quiz : Quiz) (ans : List SubmittedAnswer) :
    (grade quiz ans).results.length = (grade quiz ans).totalQuestions ∧
    (grade quiz ans).results.map QuestionResult.questionId =
      quiz.questions.map Question.id := by
  constructor
  · rw [grade_results]
    show _ = quiz.questions.length
    simp
  · rw [grade_results, List.map_map]
    simp [Function.comp, gradeQuestion_questionId]

/-- C6: a question whose id matches no submitted answer has an absent
`userAnswer` and is graded incorrect (the lookup and every grading branch
are total, so no error is raised); when several submitted answers share the
question's id, the first in submission order supplies the `userAnswer`. -/
theorem C6_answer_lookup (ans : List SubmittedAnswer) (q : Question) :
    ((∀ a ∈ ans, a.questionId ≠ q.id) →
        (gradeQuestion ans q).userAnswer = none ∧
        (gradeQuestion ans q).isCorrect = false) ∧
    (∀ as₁ a as₂, ans = as₁ ++ a :: as₂ → a.questionId = q.id →
        (∀ b ∈ as₁, b.questionId ≠ q.id) →
        (gradeQuestion ans q).userAnswer = some a.userAnswer) := by
  constructor
  · intro h
    have hf : ans.find? (fun a => a.questionId == q.id) = none := by
      rw [List.find?_eq_none]
      intro x hx
      simp [h x hx]
    have hfa : findUserAnswer ans q = none := by
      simp [findUserAnswer, hf]
    exact ⟨by rw [gradeQuestion_userAnswer, hfa],
      isCorrect_false_of_userAnswer_none ans q hfa⟩
  · intro as₁ a as₂ hsplit ha hprev
    have hf : ans.find? (fun x => x.questionId == q.id) = some a := by
      rw [hsplit]
      apply find?_first
      · intro x hx
        simp [hprev x hx]
      · simp [ha]
    rw [gradeQuestion_userAnswer]
    simp [findUserAnswer, hf]

/-- C6 applied to a submission answering `q1` twice after an unrelated
answer: the first matching answer (`A`) wins. -/
theorem C6_answer_lookup_witness :
    (gradeQuestion [⟨"zz", "x"⟩, ⟨"q1", "A"⟩, ⟨"q1", "B"⟩] parisMC).userAnswer =
      some "A" :=
  (C6_answer_lookup [⟨"zz", "x"⟩, ⟨"q1", "A"⟩, ⟨"q1", "B"⟩] parisMC).2
    [⟨"zz", "x"⟩] ⟨"q1", "A"⟩ [⟨"q1", "B"⟩] rfl rfl (by decide)

/-- C7: a question of any type other than `multiple-choice`, `true-false`
and `short-answer` is graded incorrect for every submission with an empty
reported correct-answer text; the grader is total, so no error is raised. -/
theorem C7_unknown_type (ans : List SubmittedAnswer) (q : Question)
    (h1 : q.type ≠ "multiple-choice") (h2 : q.type ≠ "true-false")
    (h3 : q.type ≠ "short-answer") :
    (gradeQuestion ans q).isCorrect = false ∧
    (gradeQuestion ans q).correctAnswer = "" := by
  simp [gradeQuestion, h1, h2, h3]

/-- C7 applied to an `essay`-typed question. -/
theorem C7_unknown_type_witness :
    (gradeQuestion [⟨"q9", "anything"⟩]
        { id := "q9", type := "essay", questionText := "Discuss.",
          options := [⟨"Yes", true⟩], correctAnswer := some "Yes" }).isCorrect
      = false ∧
    (gradeQuestion [⟨"q9", "anything"⟩]
        { id := "q9", type := "essay", questionText := "Discuss.",
          options := [⟨"Yes", true⟩], correctAnswer := some "Yes" }).correctAnswer
      = "" :=
  C7_unknown_type [⟨"q9", "anything"⟩]
    { id := "q9", type := "essay", questionText := "Discuss.",
      options := [⟨"Yes", true⟩], correctAnswer := some "Yes" }
    (by decide) (by decide) (by decide)

/-- C8: grading is deterministic and side-effect free: the loop state's
`quiz` and `answers` bindings are returned unchanged by the whole loop, and
two invocations on equal inputs produce equal graded results. -/
theorem C8_pure (quiz : Quiz) (ans : List SubmittedAnswer) :
    (gradeRun quiz ans).quiz = quiz ∧
    (gradeRun quiz ans).answers = ans ∧
    ∀ quiz2 ans2, quiz2 = quiz → ans2 = ans →
      grade quiz2 ans2 = grade quiz ans := by
  refine ⟨?_, ?_, ?_⟩
  · rw [gradeRun, foldl_gradeStep]
  · rw [gradeRun, foldl_gradeStep]
  · intro quiz2 ans2 h1 h2
    rw [h1, h2]

/-- C8 applied to the sample quiz and a concrete submission. -/
theorem C8_pure_witness :
    grade sampleQuiz [⟨"q1", "Paris"⟩] = grade sampleQuiz [⟨"q1", "Paris"⟩] :=
  (C8_pure sampleQuiz [⟨"q1", "Paris"⟩]).2.2 sampleQuiz [⟨"q1", "Paris"⟩] rfl rfl

/-- C9: the returned score equals the number of `results` entries whose
`isCorrect` field is true. -/
theorem C9_score_counts (quiz : Quiz) (ans : List SubmittedAnswer) :
    (grade quiz ans).score =
      ((grade quiz ans).results.filter QuestionResult.isCorrect).length := by
  rw [grade_score, grade_results, List.countP_eq_length_filter]

/-- C10: for a `short-answer` question the empty string is falsy, hence
treated as absent: an empty `correctAnswer` makes the question incorrect
for every submission, and an empty submitted `userAnswer` is incorrect
regardless of `correctAnswer`. -/
theorem C10_empty_strings (ans : List SubmittedAnswer) (q : Question)
    (hty : q.type = "short-answer") :
    (q.correctAnswer = some "" → (gradeQuestion ans q).isCorrect = false) ∧
    ((gradeQuestion ans q).userAnswer = some "" →
      (gradeQuestion ans q).isCorrect = false) := by
  constructor
  · intro hca
    simp [gradeQuestion, hty, hca]
  · intro hua
    rw [gradeQuestion_userAnswer] at hua
    cases hca : q.correctAnswer with
    | none => simp [gradeQuestion, hty, hca]
    | some ca =>
        rcases eq_or_ne ca "" with h | h
        · simp [gradeQuestion, hty, hca, h]
        · simp [gradeQuestion, hty, hca, h, hua, jsTruthy]

/-- C10 applied to a short-answer question expecting the empty string and a
submission answering the empty string: both paths grade incorrect. -/
theorem C10_empty_strings_witness :
    (gradeQuestion [⟨"q3", ""⟩]
        { id := "q3", type := "short-answer", questionText := "Say nothing.",
          options := [], correctAnswer := some "" }).isCorrect = false :=
  (C10_empty_strings [⟨"q3", ""⟩]
      { id := "q3", type := "short-answer", questionText := "Say nothing.",
        options := [], correctAnswer := some "" } rfl).1 rfl

end QuizGrading
